import Mathlib

/-!
Shallow embedding of `handler.py` from AWS-Automated-Daily-Instance-AMI-Snapshots.

The program runs two passes per region: `backup_tagged_instances_in_region`
(discover tagged instances, create an AMI per instance, tag it with expiry
metadata) and `delete_expired_amis` (discover managed AMIs, delete those whose
`DeleteAfter` date has passed, together with their EBS snapshots), driven by
`lambda_handler` over a region list.

The cloud API is modelled as inputs (discovery results per region) and an
outcome oracle (success/failure of each mutating call); each pass is embedded
as a function producing the list of emitted events (log lines and attempted
mutating calls) together with an optional uncaught exception, mirroring the
Python control flow including its try/except structure.
-/

namespace DailySnapshots

/-! ### String helpers (embeddings of the Python string operations used) -/

/-- Embedding of Python `s.startswith(pre)`. -/
def startswith (s pre : String) : Bool :=
  pre.data.isPrefixOf s.data

/-- Occurrence of a character pattern anywhere inside a character list. -/
def occursIn (pat : List Char) : List Char → Bool
  | [] => pat.isEmpty
  | l@(_ :: rest) => pat.isPrefixOf l || occursIn pat rest

/-- Embedding of Python `pat in s` (substring test, used on `str(sys.exc_info())`). -/
def strContains (s pat : String) : Bool :=
  occursIn pat.data s.data

/-- Split a character list on the character `-` (the separator of the
`%m-%d-%Y` date format). -/
def splitOnDash : List Char → List (List Char)
  | [] => [[]]
  | c :: rest =>
    let r := splitOnDash rest
    if c = '-' then [] :: r
    else
      match r with
      | [] => [[c]]
      | g :: gs => (c :: g) :: gs

/-- Numeric value of a decimal digit character, if it is one. -/
def charDigit (c : Char) : Option Nat :=
  if 48 ≤ c.toNat ∧ c.toNat ≤ 57 then some (c.toNat - 48) else none

/-- Accumulate the decimal value of a digit string; `none` on a non-digit. -/
def digitsVal : List Char → Nat → Option Nat
  | [], acc => some acc
  | c :: rest, acc =>
    match charDigit c with
    | some d => digitsVal rest (10 * acc + d)
    | none => none

/-- Parse a non-empty all-digit character list as a natural number. -/
def parseNatChars : List Char → Option Nat
  | [] => none
  | l => digitsVal l 0

/-! ### Dates (embedding of `datetime.date` / `time.struct_time` at day precision) -/

/-- A calendar date, as the year/month/day fields of a Python
`time.struct_time` or `datetime.date`. -/
structure Date where
  year : Nat
  month : Nat
  day : Nat
deriving DecidableEq

/-- Gregorian leap-year rule. -/
def isLeap (y : Nat) : Bool :=
  (y % 4 == 0 && y % 100 != 0) || y % 400 == 0

/-- Number of days in a month of a given year. -/
def daysInMonth (y m : Nat) : Nat :=
  if m = 2 then (if isLeap y then 29 else 28)
  else if m = 4 ∨ m = 6 ∨ m = 9 ∨ m = 11 then 30
  else 31

/-- The calendar day after a date. -/
def nextDay (d : Date) : Date :=
  if d.day < daysInMonth d.year d.month then ⟨d.year, d.month, d.day + 1⟩
  else if d.month < 12 then ⟨d.year, d.month + 1, 1⟩
  else ⟨d.year + 1, 1, 1⟩

/-- Embedding of Python `date + datetime.timedelta(days=n)` for a natural `n`. -/
def addDays (d : Date) : Nat → Date
  | 0 => d
  | n + 1 => nextDay (addDays d n)

/-- Zero-pad a number to two digits, as `strftime` does for `%m` and `%d`. -/
def pad2 (n : Nat) : String :=
  if n < 10 then "0" ++ toString n else toString n

/-- Embedding of `date.strftime('%m-%d-%Y')`. -/
def strftime_mdY (d : Date) : String :=
  pad2 d.month ++ "-" ++ pad2 d.day ++ "-" ++ toString d.year

/-- Embedding of `time.strptime(s, '%m-%d-%Y')`: `none` models the
`ValueError` raised by Python when the string does not match the format. -/
def strptime_mdY (s : String) : Option Date :=
  match splitOnDash s.data with
  | [ms, ds, ys] =>
    match parseNatChars ms, parseNatChars ds, parseNatChars ys with
    | some m, some d, some y =>
      if 1 ≤ m ∧ m ≤ 12 ∧ 1 ≤ d ∧ d ≤ 31 then some ⟨y, m, d⟩ else none
    | _, _, _ => none
  | _ => none

/-- Embedding of `struct_time < struct_time`: Python compares the fields as a
tuple, which at day precision is lexicographic on (year, month, day). -/
def struct_time_lt (a b : Date) : Bool :=
  decide (a.year < b.year) ||
    (a.year == b.year &&
      (decide (a.month < b.month) ||
        (a.month == b.month && decide (a.day < b.day))))

/-! ### Data model -/

/-- A resource tag: one `{'Key': ..., 'Value': ...}` entry. -/
structure Tag where
  key : String
  value : String
deriving DecidableEq

/-- An EC2 instance as seen by `describe_instances`: identifier, lifecycle
state name, and tag list. -/
structure Instance where
  instanceId : String
  state : String
  tags : List Tag
deriving DecidableEq

/-- One entry of an image's `BlockDeviceMappings`: `ebs` holds the
`SnapshotId` when the mapping has an `Ebs` member. -/
structure BlockDeviceMapping where
  ebs : Option String
deriving DecidableEq

/-- An AMI as seen by `describe_images`: identifier, tag list, and
block-device mappings. -/
structure Ami where
  imageId : String
  tags : List Tag
  blockDeviceMappings : List BlockDeviceMapping
deriving DecidableEq

/-- The module-level configuration read from the environment at startup
(lines 13-38 of handler.py). -/
structure Config where
  tags_to_find : List String
  default_retention_time : Nat
  global_key_to_tag_on : String
  dry_run : Bool
deriving DecidableEq

/-- The built-in region list (line 14 of handler.py). -/
def aws_regions : List String :=
  ["us-east-1", "us-east-2", "us-west-1", "us-west-2",
   "ap-east-1", "ap-northeast-1", "ap-northeast-2", "ap-northeast-3",
   "ap-south-1", "ap-southeast-1", "ap-southeast-2", "ca-central-1",
   "eu-central-1", "eu-west-1", "eu-west-2", "eu-west-3"]

/-- The default configuration when no environment overrides are present. -/
def defaultConfig : Config :=
  { tags_to_find := ["backup", "Backup"]
    default_retention_time := 7
    global_key_to_tag_on := "AWSAutomatedDailySnapshots"
    dry_run := false }

/-- Outcome oracle for the mutating EC2 calls: whether each call succeeds
(`False` models the call raising an exception) and which image id
`create_image` returns. -/
structure Outcomes where
  createImageOk : String → Bool
  imageIdOf : String → String
  createTagsOk : String → Bool
  deregisterOk : String → Bool
  deleteSnapshotOk : String → Bool

/-- Observable events of a run: log lines (`print`) and attempted mutating
EC2 calls, each recorded with the outcome the oracle assigned to it. -/
inductive Event where
  | log (msg : String)
  | createImage (instanceId name : String) (ok : Bool)
  | createTags (imageId : String) (tags : List Tag) (ok : Bool)
  | deregisterImage (imageId : String) (ok : Bool)
  | deleteSnapshot (snapshotId : String) (ok : Bool)
deriving DecidableEq

/-- An event is mutating when it is an attempted EC2 write call
(anything but a log line). -/
def Event.isMutating : Event → Bool
  | .log _ => false
  | _ => true

/-- An event is a deletion when it deregisters an image or deletes a
snapshot. -/
def Event.isDeletion : Event → Bool
  | .deregisterImage _ _ => true
  | .deleteSnapshot _ _ => true
  | _ => false

/-! ### Backup Initiator: `backup_tagged_instances_in_region` (lines 43-121) -/

/-- Embedding of `dict_tags` lookup (lines 72-74 followed by `.get`):
building a dict from the tag list makes a later entry with the same key
override an earlier one, so the lookup returns the value of the last tag
with the requested key. -/
def dict_get (tags : List Tag) (k : String) : Option String :=
  (tags.reverse.find? (fun t => t.key == k)).map Tag.value

/-- Embedding of line 77: `dict_tags.get('Name') if dict_tags.get('Name')
else instance['InstanceId']` — Python truthiness makes both a missing tag
and an empty-string value fall back to the instance id. -/
def instance_name (tags : List Tag) (instanceId : String) : String :=
  match dict_get tags "Name" with
  | some s => if s = "" then instanceId else s
  | none => instanceId

/-- A Python value that is either a string or an integer: line 81 leaves the
`Retention` tag value as a string when present, and the integer default
otherwise. -/
inductive StrOrNat where
  | str (s : String)
  | nat (n : Nat)
deriving DecidableEq

/-- Embedding of line 81: `dict_tags.get('Retention') if
dict_tags.get('Retention') else default_retention_time`. Note the value is
NOT converted with `int(...)`; a present non-empty tag value stays a string. -/
def retention_days (tags : List Tag) (cfg : Config) : StrOrNat :=
  match dict_get tags "Retention" with
  | some s => if s = "" then .nat cfg.default_retention_time else .str s
  | none => .nat cfg.default_retention_time

/-- How Python would print the retention value (str or int). -/
def display_retention : StrOrNat → String
  | .str s => s
  | .nat n => toString n

/-- Embedding of `datetime.timedelta(days=retention_days)` at line 102:
`timedelta` accepts a number but raises `TypeError` on a string. -/
def timedelta_days : StrOrNat → Except String Nat
  | .str _ => .error "TypeError: unsupported type for timedelta days component: str"
  | .nat n => .ok n

/-- Embedding of the tag sanitizing loop body (lines 108-113): a key starting
with `aws:` is renamed with an `internal-` prefix, keeping its value; any
other tag is kept as is. -/
def sanitizeTag (t : Tag) : Tag :=
  if startswith t.key "aws:" then ⟨"internal-" ++ t.key, t.value⟩ else t

/-- Embedding of lines 102-113: `instance['Tags']` with the three appended
entries (`DeleteAfter`, `OriginalInstanceID`, the marker key), each entry run
through the `aws:` sanitizing loop, in order. (The informational print at
line 110 is elided.) -/
def finaltags (srcTags : List Tag) (delete_fmt instanceId marker : String) : List Tag :=
  (srcTags ++
    ([⟨"DeleteAfter", delete_fmt⟩, ⟨"OriginalInstanceID", instanceId⟩,
      ⟨marker, "true"⟩] : List Tag)).map sanitizeTag

/-- The AMI name built at lines 88 and 94: display name, `-backup-`, and the
`%Y-%m-%d-%H-%M-%S.%f` timestamp (passed in as `now_str`). -/
def image_name (inst : Instance) (now_str : String) : String :=
  instance_name inst.tags inst.instanceId ++ "-backup-" ++ now_str

/-- The log lines 70-82 printed for every candidate instance before the
dry-run check. (Line 70 of the source prints its format string literally —
a missing `f` prefix — which we do not reproduce character-for-character.) -/
def backup_pre (inst : Instance) (cfg : Config) : List Event :=
  [.log ("Instance: " ++ inst.instanceId),
   .log ("Instance name: " ++ instance_name inst.tags inst.instanceId),
   .log ("Retention period: " ++ display_retention (retention_days inst.tags cfg) ++ " days")]

/-- The catch-all log of the per-candidate `except` block at line 119. -/
def failure_log : Event :=
  .log "Failure trying to create image or tag image.  See/report exception below"

/-- Embedding of the per-instance body of the loop at lines 69-121: resolve
name and retention, then either announce (dry run) or create the AMI and tag
it, with the whole create/tag sequence wrapped by the `try/except` of lines
91-121 (any failure inside — create_image raising, `timedelta` raising
`TypeError` on a string retention, or create_tags raising — is caught,
logged, and the loop moves on). -/
def backup_instance (cfg : Config) (oc : Outcomes) (today : Date) (now_str : String)
    (inst : Instance) : List Event :=
  let pre := backup_pre inst cfg
  if cfg.dry_run then
    pre ++ [.log "DRY_RUN", .log ("InstanceId : " ++ inst.instanceId),
            .log ("Name       : " ++ image_name inst now_str)]
  else
    if oc.createImageOk inst.instanceId then
      let imgId := oc.imageIdOf inst.instanceId
      let created := [Event.createImage inst.instanceId (image_name inst now_str) true,
                      .log ("AMI: " ++ imgId)]
      match timedelta_days (retention_days inst.tags cfg) with
      | .error _ => pre ++ created ++ [failure_log]
      | .ok n =>
        let delete_fmt := strftime_mdY (addDays today n)
        let ft := finaltags inst.tags delete_fmt inst.instanceId cfg.global_key_to_tag_on
        if oc.createTagsOk imgId then
          pre ++ created ++ [.createTags imgId ft true]
        else
          pre ++ created ++ [.createTags imgId ft false, failure_log]
    else
      pre ++ [.createImage inst.instanceId (image_name inst now_str) false, failure_log]

/-- Embedding of `backup_tagged_instances_in_region` (lines 43-121). The
`describe_instances` call is an input: either the reservation list (each a
list of instances) or the stringified exception. The function returns the
emitted events and the uncaught exception, if any. -/
def backup_tagged_instances_in_region (cfg : Config) (oc : Outcomes) (today : Date)
    (now_str : String) (discovery : Except String (List (List Instance))) :
    List Event × Option String :=
  let scan := Event.log ("Scanning for instances with tags (" ++
    String.intercalate "," cfg.tags_to_find ++ ")")
  match discovery with
  | .error e =>
    if strContains e "OptInRequired" then
      ([scan, .log "Region not activated for this account, skipping..."], none)
    else
      ([scan], some e)
  | .ok reservations =>
    let instances := reservations.flatten.filter (fun i => i.state ≠ "terminated")
    if instances.length = 0 then
      ([scan], none)
    else
      ([scan, .log ("Found " ++ toString instances.length ++ " instances to backup...")] ++
        (instances.map (backup_instance cfg oc today now_str)).flatten, none)

/-! ### Image Reaper: `delete_expired_amis` (lines 127-185) -/

/-- Embedding of line 154: the first element of the list comprehension
`[t.get('Value') for t in ami['Tags'] if t['Key'] == 'DeleteAfter']`;
`none` models the `IndexError` caught at line 155. -/
def delete_after_of (ami : Ami) : Option String :=
  (ami.tags.find? (fun t => t.key == "DeleteAfter")).map Tag.value

/-- The snapshot ids of the list comprehension at lines 169/180:
`[i['Ebs']['SnapshotId'] for i in ami['BlockDeviceMappings'] if 'Ebs' in i]`. -/
def ami_snapshots (ami : Ami) : List String :=
  ami.blockDeviceMappings.filterMap (fun b => b.ebs)

/-- A decodable expiry date for an image: a `DeleteAfter` tag is present and
its value parses in the `%m-%d-%Y` format. -/
def decodable_expiry (ami : Ami) : Option Date :=
  (delete_after_of ami).bind strptime_mdY

/-- Embedding of the per-AMI body of the loop at lines 149-185. A `.ok`
result means the iteration completed (possibly by `continue`); a `.error`
result carries the events emitted before an uncaught exception (the
`ValueError` of `time.strptime` at line 161, which is outside any
`try/except`). The image deletion and every snapshot deletion are each
wrapped in their own `try/except` (lines 174-177, 182-185). -/
def reap_one (cfg : Config) (oc : Outcomes) (today : Date) (ami : Ami) :
    Except (List Event × String) (List Event) :=
  let found := Event.log ("  Found AMI to consider: " ++ ami.imageId)
  match delete_after_of ami with
  | none => .ok [found, .log "Unable to find when to delete this image after, skipping..."]
  | some delete_after =>
    let announced := [found, Event.log ("Delete After: " ++ delete_after)]
    match strptime_mdY delete_after with
    | none => .error (announced, "ValueError: time data does not match format %m-%d-%Y")
    | some delete_date =>
      if struct_time_lt today delete_date then
        .ok (announced ++ [.log "This item is too new, skipping..."])
      else if cfg.dry_run then
        .ok (announced ++
          [.log ("DRY_RUN, would have deleted ami : " ++ ami.imageId)] ++
          (ami_snapshots ami).map
            (fun s => .log ("DRY_RUN, would have deleted volume snapshot " ++ s)))
      else
        let dereg :=
          if oc.deregisterOk ami.imageId then
            [Event.log ("DELETING AMI : " ++ ami.imageId),
             .deregisterImage ami.imageId true]
          else
            [Event.log ("DELETING AMI : " ++ ami.imageId),
             .deregisterImage ami.imageId false,
             .log "Unable to delete AMI"]
        let snaps := ((ami_snapshots ami).map (fun s =>
          if oc.deleteSnapshotOk s then
            [Event.log ("DELETING AMI " ++ ami.imageId ++ " SNAPSHOT : " ++ s),
             .deleteSnapshot s true]
          else
            [Event.log ("DELETING AMI " ++ ami.imageId ++ " SNAPSHOT : " ++ s),
             .deleteSnapshot s false,
             .log "Unable to delete snapshot"])).flatten
        .ok (announced ++ dereg ++ snaps)

/-- The loop of lines 149-185 over the discovered AMIs: stops at the first
uncaught exception, keeping the events emitted so far. -/
def reap_loop (cfg : Config) (oc : Outcomes) (today : Date) :
    List Ami → List Event × Option String
  | [] => ([], none)
  | a :: rest =>
    match reap_one cfg oc today a with
    | .ok evs =>
      let r := reap_loop cfg oc today rest
      (evs ++ r.1, r.2)
    | .error (evs, msg) => (evs, some msg)

/-- Embedding of `delete_expired_amis` (lines 127-185). The
`describe_images` call is an input, as in the backup pass; the scanning log
at line 130 is printed inside the `try`, before the call. -/
def delete_expired_amis (cfg : Config) (oc : Outcomes) (today : Date)
    (discovery : Except String (List Ami)) : List Event × Option String :=
  let scan := Event.log ("Scanning for AMIs with tags (" ++ cfg.global_key_to_tag_on ++ ")")
  match discovery with
  | .error e =>
    if strContains e "OptInRequired" then
      ([scan, .log "  Region not activated for this account, skipping..."], none)
    else
      ([scan], some e)
  | .ok amis =>
    if amis.length = 0 then
      ([scan], none)
    else
      let r := reap_loop cfg oc today amis
      ([scan, .log ("Found " ++ toString amis.length ++ " amis to consider...")] ++ r.1, r.2)

/-! ### Entry point: `lambda_handler` (lines 191-200) -/

/-- The per-region inputs of one run: the region name and the discovery
results the region-scoped client would return to each pass. -/
structure RegionEnv where
  region : String
  instance_discovery : Except String (List (List Instance))
  image_discovery : Except String (List Ami)

/-- Attach a region name to each event of a pass. -/
def tagRegion (r : String) (evs : List Event) : List (String × Event) :=
  evs.map (fun e => (r, e))

/-- Embedding of `lambda_handler` (lines 191-200): for each region in order,
log the region, run the Backup Initiator, then run the Reaper; an uncaught
exception from either pass propagates and stops the remaining regions. -/
def lambda_handler (cfg : Config) (oc : Outcomes) (today : Date) (now_str : String) :
    List RegionEnv → List (String × Event) × Option String
  | [] => ([], none)
  | renv :: rest =>
    let head := (renv.region, Event.log ("Scanning region: " ++ renv.region))
    let b := backup_tagged_instances_in_region cfg oc today now_str renv.instance_discovery
    match b.2 with
    | some e => (head :: tagRegion renv.region b.1, some e)
    | none =>
      let d := delete_expired_amis cfg oc today renv.image_discovery
      match d.2 with
      | some e => (head :: tagRegion renv.region (b.1 ++ d.1), some e)
      | none =>
        let r := lambda_handler cfg oc today now_str rest
        ((head :: tagRegion renv.region (b.1 ++ d.1)) ++ r.1, r.2)

/-- The events a single region contributes to a fully successful run. -/
def region_block (cfg : Config) (oc : Outcomes) (today : Date) (now_str : String)
    (renv : RegionEnv) : List (String × Event) :=
  (renv.region, Event.log ("Scanning region: " ++ renv.region)) ::
    tagRegion renv.region
      ((backup_tagged_instances_in_region cfg oc today now_str renv.instance_discovery).1 ++
       (delete_expired_amis cfg oc today renv.image_discovery).1)

/-- The events of a pass iteration whether or not it ended in an uncaught
exception. -/
def resultEvents : Except (List Event × String) (List Event) → List Event
  | .ok evs => evs
  | .error (evs, _) => evs

/-! ### Helper lemmas -/

lemma internal_key_not_aws (k : String) :
    startswith ("internal-" ++ k) "aws:" = false := by
  simp [startswith, String.data_append, List.isPrefixOf]

lemma sanitizeTag_key_not_aws (t : Tag) :
    startswith (sanitizeTag t).key "aws:" = false := by
  cases h : startswith t.key "aws:" with
  | true => simp [sanitizeTag, h, internal_key_not_aws]
  | false => simp [sanitizeTag, h]

lemma sanitizeTag_of_not_aws {t : Tag} (h : startswith t.key "aws:" = false) :
    sanitizeTag t = t := by
  simp [sanitizeTag, h]

lemma filter_eq_nil_of_all {α} (p : α → Bool) (l : List α)
    (h : ∀ a ∈ l, p a = false) : l.filter p = [] := by
  induction l with
  | nil => rfl
  | cons a l ih =>
    rw [List.filter_cons]
    simp only [h a (List.mem_cons_self a l)]
    exact ih (fun b hb => h b (List.mem_cons_of_mem a hb))

lemma backup_instance_events (cfg : Config) (oc : Outcomes) (today : Date)
    (now_str : String) (inst : Instance) :
    ∀ e ∈ backup_instance cfg oc today now_str inst,
      e.isDeletion = false ∧ (cfg.dry_run = true → e.isMutating = false) := by
  intro e he
  unfold backup_instance at he
  cases hdry : cfg.dry_run with
  | true =>
    simp only [hdry, if_true, backup_pre, List.cons_append, List.nil_append,
      List.mem_cons, List.not_mem_nil, or_false] at he
    rcases he with rfl | rfl | rfl | rfl | rfl | rfl <;>
      simp [Event.isDeletion, Event.isMutating]
  | false =>
    simp only [hdry, Bool.false_eq_true, if_false] at he
    cases hc : oc.createImageOk inst.instanceId with
    | false =>
      simp only [hc, Bool.false_eq_true, if_false, backup_pre, List.cons_append,
        List.nil_append, List.mem_cons, List.not_mem_nil, or_false] at he
      rcases he with rfl | rfl | rfl | rfl | rfl <;>
        simp [Event.isDeletion, Event.isMutating, failure_log, hdry]
    | true =>
      simp only [hc, if_true] at he
      cases htd : timedelta_days (retention_days inst.tags cfg) with
      | error msg =>
        simp only [htd, backup_pre, List.cons_append, List.nil_append,
          List.mem_cons, List.not_mem_nil, or_false] at he
        rcases he with rfl | rfl | rfl | rfl | rfl | rfl <;>
          simp [Event.isDeletion, Event.isMutating, failure_log, hdry]
      | ok n =>
        simp only [htd] at he
        cases hct : oc.createTagsOk (oc.imageIdOf inst.instanceId) with
        | true =>
          simp only [hct, if_true, backup_pre, List.cons_append, List.nil_append,
            List.mem_cons, List.not_mem_nil, or_false] at he
          rcases he with rfl | rfl | rfl | rfl | rfl | rfl <;>
            simp [Event.isDeletion, Event.isMutating, hdry]
        | false =>
          simp only [hct, Bool.false_eq_true, if_false, backup_pre, List.cons_append,
            List.nil_append, List.mem_cons, List.not_mem_nil, or_false] at he
          rcases he with rfl | rfl | rfl | rfl | rfl | rfl | rfl <;>
            simp [Event.isDeletion, Event.isMutating, failure_log, hdry]

lemma reap_one_events_dry (cfg : Config) (oc : Outcomes) (today : Date) (ami : Ami)
    (hdry : cfg.dry_run = true) :
    ∀ e ∈ resultEvents (reap_one cfg oc today ami), e.isMutating = false := by
  intro e he
  unfold reap_one at he
  cases hda : delete_after_of ami with
  | none =>
    simp only [hda, resultEvents, List.mem_cons, List.not_mem_nil, or_false] at he
    rcases he with rfl | rfl <;> simp [Event.isMutating]
  | some v =>
    simp only [hda] at he
    cases hpd : strptime_mdY v with
    | none =>
      simp only [hpd, resultEvents, List.mem_cons, List.not_mem_nil, or_false] at he
      rcases he with rfl | rfl <;> simp [Event.isMutating]
    | some d =>
      simp only [hpd] at he
      cases hlt : struct_time_lt today d with
      | true =>
        simp only [hlt, if_true, resultEvents, List.cons_append, List.nil_append,
          List.mem_cons, List.not_mem_nil, or_false] at he
        rcases he with rfl | rfl | rfl <;> simp [Event.isMutating]
      | false =>
        simp only [hlt, Bool.false_eq_true, if_false, hdry, if_true, resultEvents,
          List.cons_append, List.nil_append, List.mem_cons, List.mem_append,
          List.not_mem_nil, or_false, List.mem_map] at he
        rcases he with rfl | rfl | rfl | ⟨s, hs, rfl⟩ <;> simp [Event.isMutating]

lemma reap_loop_events_dry (cfg : Config) (oc : Outcomes) (today : Date)
    (hdry : cfg.dry_run = true) (amis : List Ami) :
    ∀ e ∈ (reap_loop cfg oc today amis).1, e.isMutating = false := by
  induction amis with
  | nil => simp [reap_loop]
  | cons a rest ih =>
    intro e he
    unfold reap_loop at he
    cases hr : reap_one cfg oc today a with
    | ok evs =>
      rw [hr] at he
      simp only [List.mem_append] at he
      rcases he with he | he
      · exact reap_one_events_dry cfg oc today a hdry e (by rw [hr]; exact he)
      · exact ih e he
    | error p =>
      rw [hr] at he
      exact reap_one_events_dry cfg oc today a hdry e (by rw [hr]; exact he)

lemma delete_expired_amis_events_dry (cfg : Config) (oc : Outcomes) (today : Date)
    (disc : Except String (List Ami)) (hdry : cfg.dry_run = true) :
    ∀ e ∈ (delete_expired_amis cfg oc today disc).1, e.isMutating = false := by
  intro e he
  unfold delete_expired_amis at he
  cases disc with
  | error msg =>
    cases hoi : strContains msg "OptInRequired" with
    | true =>
      simp only [hoi, if_true, List.mem_cons, List.not_mem_nil, or_false] at he
      rcases he with rfl | rfl <;> simp [Event.isMutating]
    | false =>
      simp only [hoi, Bool.false_eq_true, if_false, List.mem_cons, List.not_mem_nil,
        or_false] at he
      rcases he with rfl; simp [Event.isMutating]
  | ok amis =>
    by_cases hlen : amis.length = 0
    · simp only [hlen, if_true, List.mem_cons, List.not_mem_nil, or_false] at he
      rcases he with rfl; simp [Event.isMutating]
    · simp only [hlen, if_false, List.cons_append, List.nil_append, List.mem_cons] at he
      rcases he with rfl | rfl | he
      · simp [Event.isMutating]
      · simp [Event.isMutating]
      · exact reap_loop_events_dry cfg oc today hdry amis e he

lemma backup_pass_events (cfg : Config) (oc : Outcomes) (today : Date) (now_str : String)
    (disc : Except String (List (List Instance))) :
    ∀ e ∈ (backup_tagged_instances_in_region cfg oc today now_str disc).1,
      e.isDeletion = false ∧ (cfg.dry_run = true → e.isMutating = false) := by
  intro e he
  unfold backup_tagged_instances_in_region at he
  cases disc with
  | error msg =>
    cases hoi : strContains msg "OptInRequired" with
    | true =>
      simp only [hoi, if_true, List.mem_cons, List.not_mem_nil, or_false] at he
      rcases he with rfl | rfl <;> simp [Event.isDeletion, Event.isMutating]
    | false =>
      simp only [hoi, Bool.false_eq_true, if_false, List.mem_cons, List.not_mem_nil,
        or_false] at he
      rcases he with rfl; simp [Event.isDeletion, Event.isMutating]
  | ok reservations =>
    by_cases hlen :
        (reservations.flatten.filter (fun i => i.state ≠ "terminated")).length = 0
    · simp only [hlen, if_true, List.mem_cons, List.not_mem_nil, or_false] at he
      rcases he with rfl; simp [Event.isDeletion, Event.isMutating]
    · simp only [hlen, if_false, List.cons_append, List.nil_append, List.mem_cons,
        List.mem_flatten, List.mem_map] at he
      rcases he with rfl | rfl | ⟨l, ⟨inst, hinst, rfl⟩, hel⟩
      · simp [Event.isDeletion, Event.isMutating]
      · simp [Event.isDeletion, Event.isMutating]
      · exact backup_instance_events cfg oc today now_str inst e hel

lemma lambda_handler_events_dry (cfg : Config) (oc : Outcomes) (today : Date)
    (now_str : String) (hdry : cfg.dry_run = true) (envs : List RegionEnv) :
    ∀ p ∈ (lambda_handler cfg oc today now_str envs).1, p.2.isMutating = false := by
  induction envs with
  | nil => simp [lambda_handler]
  | cons renv rest ih =>
    intro p hp
    unfold lambda_handler at hp
    cases hb :
        (backup_tagged_instances_in_region cfg oc today now_str renv.instance_discovery).2 with
    | some msg =>
      simp only [hb, List.mem_cons, tagRegion, List.mem_map] at hp
      rcases hp with rfl | ⟨e2, he2, rfl⟩
      · simp [Event.isMutating]
      · exact (backup_pass_events cfg oc today now_str renv.instance_discovery e2 he2).2 hdry
    | none =>
      simp only [hb] at hp
      cases hd : (delete_expired_amis cfg oc today renv.image_discovery).2 with
      | some msg =>
        simp only [hd, List.mem_cons, tagRegion, List.mem_map, List.mem_append] at hp
        rcases hp with rfl | ⟨e2, he2 | he2, rfl⟩
        · simp [Event.isMutating]
        · exact (backup_pass_events cfg oc today now_str renv.instance_discovery e2 he2).2 hdry
        · exact delete_expired_amis_events_dry cfg oc today renv.image_discovery hdry e2 he2
      | none =>
        simp only [hd, List.cons_append, List.mem_cons, List.mem_append, tagRegion,
          List.mem_map] at hp
        rcases hp with rfl | ⟨e2, he2 | he2, rfl⟩ | hp
        · simp [Event.isMutating]
        · exact (backup_pass_events cfg oc today now_str renv.instance_discovery e2 he2).2 hdry
        · exact delete_expired_amis_events_dry cfg oc today renv.image_discovery hdry e2 he2
        · exact ih p hp

lemma snap_events_filter (oc : Outcomes) (iid : String) (l : List String) :
    ((l.map (fun s =>
        if oc.deleteSnapshotOk s then
          [Event.log ("DELETING AMI " ++ iid ++ " SNAPSHOT : " ++ s),
           .deleteSnapshot s true]
        else
          [Event.log ("DELETING AMI " ++ iid ++ " SNAPSHOT : " ++ s),
           .deleteSnapshot s false,
           .log "Unable to delete snapshot"])).flatten).filter Event.isMutating
      = l.map (fun s => Event.deleteSnapshot s (oc.deleteSnapshotOk s)) := by
  induction l with
  | nil => rfl
  | cons s l ih =>
    cases hs : oc.deleteSnapshotOk s <;>
      simp [hs, List.filter_append, List.filter_cons, Event.isMutating, ih]

lemma reap_one_live_spec (cfg : Config) (oc : Outcomes) (today : Date) (ami : Ami)
    (v : String) (d : Date) (hdry : cfg.dry_run = false)
    (hv : delete_after_of ami = some v) (hd : strptime_mdY v = some d)
    (hlt : struct_time_lt today d = false) :
    ∃ evs, reap_one cfg oc today ami = .ok evs ∧
      evs.filter Event.isMutating =
        Event.deregisterImage ami.imageId (oc.deregisterOk ami.imageId) ::
          (ami_snapshots ami).map
            (fun s => Event.deleteSnapshot s (oc.deleteSnapshotOk s)) := by
  refine ⟨[Event.log ("  Found AMI to consider: " ++ ami.imageId),
      Event.log ("Delete After: " ++ v)] ++
    (if oc.deregisterOk ami.imageId then
      [Event.log ("DELETING AMI : " ++ ami.imageId),
       .deregisterImage ami.imageId true]
    else
      [Event.log ("DELETING AMI : " ++ ami.imageId),
       .deregisterImage ami.imageId false,
       .log "Unable to delete AMI"]) ++
    (((ami_snapshots ami).map (fun s =>
      if oc.deleteSnapshotOk s then
        [Event.log ("DELETING AMI " ++ ami.imageId ++ " SNAPSHOT : " ++ s),
         .deleteSnapshot s true]
      else
        [Event.log ("DELETING AMI " ++ ami.imageId ++ " SNAPSHOT : " ++ s),
         .deleteSnapshot s false,
         .log "Unable to delete snapshot"])).flatten), ?_, ?_⟩
  · simp only [reap_one, hv, hd, hlt, Bool.false_eq_true, if_false, hdry]
  · cases hdg : oc.deregisterOk ami.imageId <;>
      simp [hdg, List.filter_append, List.filter_cons, Event.isMutating,
        snap_events_filter oc ami.imageId (ami_snapshots ami)]

/-! ### Concrete fixtures used by the claim theorems and witnesses -/

/-- Oracle under which every mutating call succeeds; `create_image` returns
`ami-123`. -/
def allOk : Outcomes :=
  ⟨fun _ => true, fun _ => "ami-123", fun _ => true, fun _ => true, fun _ => true⟩

/-- Oracle under which `create_image` raises and everything else succeeds. -/
def createFails : Outcomes :=
  ⟨fun _ => false, fun _ => "ami-123", fun _ => true, fun _ => true, fun _ => true⟩

/-- Oracle under which `deregister_image` raises and everything else succeeds. -/
def deregFails : Outcomes :=
  ⟨fun _ => true, fun _ => "ami-123", fun _ => true, fun _ => false, fun _ => true⟩

/-- A run date of 2024-01-01. -/
def day0 : Date := ⟨2024, 1, 1⟩

/-- A run date of 2024-01-04 (the expiry date of `goodAmi`). -/
def expiryDay : Date := ⟨2024, 1, 4⟩

/-- A run date of 2024-06-01 (well past the expiry date of `goodAmi`). -/
def junDate : Date := ⟨2024, 6, 1⟩

/-- An instance with a numeric `Retention` override tag. -/
def retentionInst : Instance :=
  ⟨"i-abc", "running", [⟨"backup", ""⟩, ⟨"Retention", "3"⟩]⟩

/-- An instance whose `Name` and `Retention` tags are present but empty. -/
def emptyTagInst : Instance :=
  ⟨"i-abc", "running", [⟨"backup", ""⟩, ⟨"Name", ""⟩, ⟨"Retention", ""⟩]⟩

/-- An instance with only the `backup` marker tag. -/
def namedInst : Instance := ⟨"i-abc", "running", [⟨"backup", ""⟩]⟩

/-- A managed image with a decodable expiry of 01-04-2024 and one snapshot. -/
def goodAmi : Ami :=
  ⟨"ami-1",
   [⟨"AWSAutomatedDailySnapshots", "true"⟩, ⟨"DeleteAfter", "01-04-2024"⟩],
   [⟨some "snap-1"⟩]⟩

/-- A managed image whose `DeleteAfter` value does not parse as a date. -/
def badAmi : Ami :=
  ⟨"ami-2",
   [⟨"AWSAutomatedDailySnapshots", "true"⟩, ⟨"DeleteAfter", "not-a-date"⟩],
   [⟨some "snap-2"⟩]⟩

/-- A managed image with no `DeleteAfter` tag at all. -/
def noExpiryAmi : Ami :=
  ⟨"ami-3", [⟨"AWSAutomatedDailySnapshots", "true"⟩], [⟨some "snap-3"⟩]⟩

/-- The default configuration with the dry-run flag set. -/
def dryConfig : Config := { defaultConfig with dry_run := true }

/-- A one-region environment with one candidate instance and one expired
managed image. -/
def sampleEnv : RegionEnv :=
  ⟨"us-east-1", .ok [[namedInst]], .ok [goodAmi]⟩

/-! ### Claim theorems -/

/-- C1: the claim says an instance whose `Retention` tag parses as a positive
integer N gets an image whose expiry tag is the creation date plus N days,
and an unparseable value falls back to the default. The code never parses
the tag: line 81 keeps the tag value as a string, and
`datetime.timedelta(days=...)` at line 102 raises `TypeError` on any string.
Evaluated at an instance with `Retention = "3"` on 2024-01-01 in live mode:
the AMI is created, the `TypeError` is caught by the per-candidate handler,
and NO tags at all are applied (no `create_tags` call, no `DeleteAfter` of
`01-04-2024` as the claim requires). -/
theorem retention_tag_typeerror_leaves_image_untagged :
    backup_instance defaultConfig allOk day0 "2024-01-01-00-00-00.000000" retentionInst =
      [.log "Instance: i-abc", .log "Instance name: i-abc",
       .log "Retention period: 3 days",
       .createImage "i-abc" "i-abc-backup-2024-01-01-00-00-00.000000" true,
       .log "AMI: ami-123", failure_log] ∧
    strftime_mdY (addDays day0 3) = "01-04-2024" := by
  constructor
  · decide
  · decide

/-- C2 counterexample: the claim says an image whose expiry tag does not
decode — absent OR unparseable — is skipped with no error. On a region whose
image list holds `badAmi` (`DeleteAfter = "not-a-date"`) followed by an
expired `goodAmi`, the Reaper raises an uncaught `ValueError` (line 161 is
outside any try/except): the pass aborts instead of skipping, and even the
deletion of `goodAmi` never happens. -/
theorem unparseable_delete_after_raises :
    (delete_expired_amis defaultConfig allOk junDate (.ok [badAmi, goodAmi])).2 =
      some "ValueError: time data does not match format %m-%d-%Y" ∧
    (delete_expired_amis defaultConfig allOk junDate
      (.ok [badAmi, goodAmi])).1.filter Event.isMutating = [] := by
  constructor
  · decide
  · decide

/-- C2 (amended): an image whose `DeleteAfter` tag is ABSENT is skipped with
a log and no error and zero mutating calls; an image whose `DeleteAfter`
value is present but unparseable causes an uncaught `ValueError` that aborts
the pass — still with zero mutating calls for that image. -/
theorem reaper_missing_or_unparseable_expiry (cfg : Config) (oc : Outcomes)
    (today : Date) (ami : Ami) :
    (delete_after_of ami = none →
      reap_one cfg oc today ami =
        .ok [.log ("  Found AMI to consider: " ++ ami.imageId),
             .log "Unable to find when to delete this image after, skipping..."]) ∧
    (∀ v, delete_after_of ami = some v → strptime_mdY v = none →
      reap_one cfg oc today ami =
        .error ([.log ("  Found AMI to consider: " ++ ami.imageId),
                 .log ("Delete After: " ++ v)],
                "ValueError: time data does not match format %m-%d-%Y")) := by
  constructor
  · intro h
    simp only [reap_one, h]
  · intro v hv hp
    simp only [reap_one, hv, hp]

/-- C2 witness: the amended claim evaluated on a tag-less image (skip, no
error) and on an unparseable one (uncaught `ValueError`). -/
theorem reaper_missing_or_unparseable_expiry_witness :
    reap_one defaultConfig allOk day0 noExpiryAmi =
      .ok [.log ("  Found AMI to consider: " ++ noExpiryAmi.imageId),
           .log "Unable to find when to delete this image after, skipping..."] ∧
    reap_one defaultConfig allOk day0 badAmi =
      .error ([.log ("  Found AMI to consider: " ++ badAmi.imageId),
               .log ("Delete After: " ++ "not-a-date")],
              "ValueError: time data does not match format %m-%d-%Y") :=
  ⟨(reaper_missing_or_unparseable_expiry defaultConfig allOk day0 noExpiryAmi).1
      (by decide),
   (reaper_missing_or_unparseable_expiry defaultConfig allOk day0 badAmi).2
      "not-a-date" (by decide) (by decide)⟩

/-- C3: for a managed image with a decodable expiry date, in live mode: if
today is strictly before the expiry the Reaper only logs and skips; if today
equals or is after the expiry (inclusive boundary) the iteration completes
normally and its mutating calls are exactly the image deregistration
followed by the deletion of every dependent EBS snapshot. -/
theorem reaper_expiry_boundary (cfg : Config) (oc : Outcomes) (today : Date)
    (ami : Ami) (v : String) (d : Date) (hdry : cfg.dry_run = false)
    (hv : delete_after_of ami = some v) (hd : strptime_mdY v = some d) :
    (struct_time_lt today d = true →
      reap_one cfg oc today ami =
        .ok [.log ("  Found AMI to consider: " ++ ami.imageId),
             .log ("Delete After: " ++ v),
             .log "This item is too new, skipping..."]) ∧
    (struct_time_lt today d = false →
      ∃ evs, reap_one cfg oc today ami = .ok evs ∧
        evs.filter Event.isMutating =
          Event.deregisterImage ami.imageId (oc.deregisterOk ami.imageId) ::
            (ami_snapshots ami).map
              (fun s => Event.deleteSnapshot s (oc.deleteSnapshotOk s))) := by
  constructor
  · intro hlt
    simp only [reap_one, hv, hd, hlt, if_true]
    rfl
  · intro hlt
    exact reap_one_live_spec cfg oc today ami v d hdry hv hd hlt

/-- C3 witness: `goodAmi` (expiry 01-04-2024) evaluated ON its expiry date is
deleted together with its snapshot (inclusive boundary), and evaluated on
2024-01-01 is skipped as too new. -/
theorem reaper_expiry_boundary_witness :
    (∃ evs, reap_one defaultConfig allOk expiryDay goodAmi = .ok evs ∧
      evs.filter Event.isMutating =
        Event.deregisterImage goodAmi.imageId (allOk.deregisterOk goodAmi.imageId) ::
          (ami_snapshots goodAmi).map
            (fun s => Event.deleteSnapshot s (allOk.deleteSnapshotOk s))) ∧
    reap_one defaultConfig allOk day0 goodAmi =
      .ok [.log ("  Found AMI to consider: " ++ goodAmi.imageId),
           .log ("Delete After: " ++ "01-04-2024"),
           .log "This item is too new, skipping..."] :=
  ⟨(reaper_expiry_boundary defaultConfig allOk expiryDay goodAmi "01-04-2024"
      ⟨2024, 1, 4⟩ rfl (by decide) (by decide)).2 (by decide),
   (reaper_expiry_boundary defaultConfig allOk day0 goodAmi "01-04-2024"
      ⟨2024, 1, 4⟩ rfl (by decide) (by decide)).1 (by decide)⟩

/-- C4: every source tag whose key starts with `aws:` appears in the applied
tag set renamed with the `internal-` prefix and with its value unchanged,
and no entry of the applied tag set carries the original reserved key; a
source tag without the reserved prefix is copied unchanged. -/
theorem aws_prefixed_tags_renamed (tags : List Tag) (delete_fmt iid marker : String)
    (t : Tag) (ht : t ∈ tags) :
    (startswith t.key "aws:" = true →
      (⟨"internal-" ++ t.key, t.value⟩ : Tag) ∈ finaltags tags delete_fmt iid marker ∧
      ∀ u ∈ finaltags tags delete_fmt iid marker, u.key ≠ t.key) ∧
    (startswith t.key "aws:" = false →
      t ∈ finaltags tags delete_fmt iid marker) := by
  constructor
  · intro h
    constructor
    · unfold finaltags
      exact List.mem_map.mpr ⟨t, List.mem_append_left _ ht, by simp [sanitizeTag, h]⟩
    · intro u hu
      simp only [finaltags, List.mem_map] at hu
      rcases hu with ⟨w, _, rfl⟩
      intro hk
      have hw := sanitizeTag_key_not_aws w
      rw [hk, h] at hw
      exact Bool.true_eq_false.mp hw
  · intro h
    unfold finaltags
    exact List.mem_map.mpr ⟨t, List.mem_append_left _ ht, sanitizeTag_of_not_aws h⟩

/-- C4 witness: a reserved tag `aws:x = v` is renamed to `internal-aws:x`
with the value kept, and a plain tag `Name = web1` is copied unchanged. -/
theorem aws_prefixed_tags_renamed_witness :
    (⟨"internal-" ++ "aws:x", "v"⟩ : Tag) ∈
      finaltags [⟨"aws:x", "v"⟩, ⟨"Name", "web1"⟩] "01-08-2024" "i-abc"
        "AWSAutomatedDailySnapshots" ∧
    (⟨"Name", "web1"⟩ : Tag) ∈
      finaltags [⟨"aws:x", "v"⟩, ⟨"Name", "web1"⟩] "01-08-2024" "i-abc"
        "AWSAutomatedDailySnapshots" :=
  ⟨((aws_prefixed_tags_renamed [⟨"aws:x", "v"⟩, ⟨"Name", "web1"⟩] "01-08-2024"
      "i-abc" "AWSAutomatedDailySnapshots" ⟨"aws:x", "v"⟩ (by decide)).1 (by decide)).1,
   (aws_prefixed_tags_renamed [⟨"aws:x", "v"⟩, ⟨"Name", "web1"⟩] "01-08-2024"
      "i-abc" "AWSAutomatedDailySnapshots" ⟨"Name", "web1"⟩ (by decide)).2 (by decide)⟩

/-- C5: with the dry-run flag set, a whole run — both passes over every
configured region — issues no mutating call at all: the emitted trace
contains only log lines. -/
theorem dry_run_no_mutations (cfg : Config) (oc : Outcomes) (today : Date)
    (now_str : String) (envs : List RegionEnv) (h : cfg.dry_run = true) :
    (lambda_handler cfg oc today now_str envs).1.filter
      (fun p => p.2.isMutating) = [] :=
  filter_eq_nil_of_all _ _
    (fun p hp => lambda_handler_events_dry cfg oc today now_str h envs p hp)

/-- C5 witness: a dry run over a region with one backup candidate and one
expired managed image issues zero mutating calls. -/
theorem dry_run_no_mutations_witness :
    (lambda_handler dryConfig allOk junDate "2024-06-01-00-00-00.000000"
      [sampleEnv]).1.filter (fun p => p.2.isMutating) = [] :=
  dry_run_no_mutations dryConfig allOk junDate "2024-06-01-00-00-00.000000"
    [sampleEnv] rfl

/-- C6: when a discovery query fails and the stringified exception mentions
`OptInRequired`, each pass returns normally, with only log lines emitted and
no exception re-raised; any other discovery failure is re-raised out of the
pass after the scanning log. -/
theorem opt_in_required_tolerated (cfg : Config) (oc : Outcomes) (today : Date)
    (now_str : String) (e : String) :
    (strContains e "OptInRequired" = true →
      backup_tagged_instances_in_region cfg oc today now_str (.error e) =
        ([.log ("Scanning for instances with tags (" ++
            String.intercalate "," cfg.tags_to_find ++ ")"),
          .log "Region not activated for this account, skipping..."], none) ∧
      delete_expired_amis cfg oc today (.error e) =
        ([.log ("Scanning for AMIs with tags (" ++ cfg.global_key_to_tag_on ++ ")"),
          .log "  Region not activated for this account, skipping..."], none)) ∧
    (strContains e "OptInRequired" = false →
      backup_tagged_instances_in_region cfg oc today now_str (.error e) =
        ([.log ("Scanning for instances with tags (" ++
            String.intercalate "," cfg.tags_to_find ++ ")")], some e) ∧
      delete_expired_amis cfg oc today (.error e) =
        ([.log ("Scanning for AMIs with tags (" ++ cfg.global_key_to_tag_on ++ ")")],
         some e)) := by
  constructor <;> intro h <;>
    exact ⟨by simp [backup_tagged_instances_in_region, h],
           by simp [delete_expired_amis, h]⟩

/-- C6 witness: an `OptInRequired` discovery failure is tolerated by both
passes (normal return, no error), while an `AccessDenied` one propagates. -/
theorem opt_in_required_tolerated_witness :
    (backup_tagged_instances_in_region defaultConfig allOk day0 "ts"
      (.error "An error occurred (OptInRequired) when calling the DescribeInstances operation") =
      ([.log ("Scanning for instances with tags (" ++
          String.intercalate "," defaultConfig.tags_to_find ++ ")"),
        .log "Region not activated for this account, skipping..."], none)) ∧
    (delete_expired_amis defaultConfig allOk day0
      (.error "An error occurred (AccessDenied) when calling the DescribeImages operation") =
      ([.log ("Scanning for AMIs with tags (" ++ defaultConfig.global_key_to_tag_on ++ ")")],
       some "An error occurred (AccessDenied) when calling the DescribeImages operation")) :=
  ⟨((opt_in_required_tolerated defaultConfig allOk day0 "ts"
      "An error occurred (OptInRequired) when calling the DescribeInstances operation").1
      (by decide)).1,
   ((opt_in_required_tolerated defaultConfig allOk day0 "ts"
      "An error occurred (AccessDenied) when calling the DescribeImages operation").2
      (by decide)).2⟩

/-- C7: in live mode, per-resource mutation failures are contained: the
Backup Initiator pass never raises once discovery has succeeded (whole batch
processed); a failing `create_image` and a failing `create_tags` each end
the candidate with the logged failure message and nothing more; and an
eligible Reaper candidate always completes its iteration normally with its
mutating calls being exactly the deregistration attempt followed by the
deletion attempt of EVERY dependent snapshot, for any oracle — in
particular the snapshots are still attempted when the image deletion
failed. -/
theorem per_resource_failures_contained (cfg : Config) (oc : Outcomes)
    (today : Date) (now_str : String) (hdry : cfg.dry_run = false) :
    (∀ reservations,
      (backup_tagged_instances_in_region cfg oc today now_str
        (.ok reservations)).2 = none) ∧
    (∀ inst : Instance, oc.createImageOk inst.instanceId = false →
      backup_instance cfg oc today now_str inst =
        backup_pre inst cfg ++
          [.createImage inst.instanceId (image_name inst now_str) false,
           failure_log]) ∧
    (∀ inst : Instance, ∀ n : Nat, oc.createImageOk inst.instanceId = true →
      timedelta_days (retention_days inst.tags cfg) = .ok n →
      oc.createTagsOk (oc.imageIdOf inst.instanceId) = false →
      backup_instance cfg oc today now_str inst =
        backup_pre inst cfg ++
          [.createImage inst.instanceId (image_name inst now_str) true,
           .log ("AMI: " ++ oc.imageIdOf inst.instanceId)] ++
          [.createTags (oc.imageIdOf inst.instanceId)
             (finaltags inst.tags (strftime_mdY (addDays today n)) inst.instanceId
               cfg.global_key_to_tag_on) false,
           failure_log]) ∧
    (∀ ami v d, delete_after_of ami = some v → strptime_mdY v = some d →
      struct_time_lt today d = false →
      ∃ evs, reap_one cfg oc today ami = .ok evs ∧
        evs.filter Event.isMutating =
          Event.deregisterImage ami.imageId (oc.deregisterOk ami.imageId) ::
            (ami_snapshots ami).map
              (fun s => Event.deleteSnapshot s (oc.deleteSnapshotOk s))) := by
  refine ⟨?_, ?_, ?_, ?_⟩
  · intro reservations
    simp only [backup_tagged_instances_in_region]
    split <;> rfl
  · intro inst hc
    simp [backup_instance, hdry, hc]
  · intro inst n hc htd hct
    simp [backup_instance, hdry, hc, htd, hct]
  · intro ami v d hv hd hlt
    exact reap_one_live_spec cfg oc today ami v d hdry hv hd hlt

/-- C7 witness: a failing `create_image` leaves the candidate with the
logged failure and the batch alive, and a failing `deregister_image` still
leads to the snapshot deletion attempt. -/
theorem per_resource_failures_contained_witness :
    backup_instance defaultConfig createFails day0 "ts" namedInst =
      backup_pre namedInst defaultConfig ++
        [.createImage namedInst.instanceId (image_name namedInst "ts") false,
         failure_log] ∧
    (∃ evs, reap_one defaultConfig deregFails junDate goodAmi = .ok evs ∧
      evs.filter Event.isMutating =
        Event.deregisterImage goodAmi.imageId
            (deregFails.deregisterOk goodAmi.imageId) ::
          (ami_snapshots goodAmi).map
            (fun s => Event.deleteSnapshot s (deregFails.deleteSnapshotOk s))) :=
  ⟨(per_resource_failures_contained defaultConfig createFails day0 "ts" rfl).2.1
      namedInst rfl,
   (per_resource_failures_contained defaultConfig deregFails junDate "ts" rfl).2.2.2
      goodAmi "01-04-2024" ⟨2024, 1, 4⟩ (by decide) (by decide) (by decide)⟩

lemma lambda_handler_trace (cfg : Config) (oc : Outcomes) (today : Date)
    (now_str : String) (envs : List RegionEnv)
    (h : (lambda_handler cfg oc today now_str envs).2 = none) :
    (lambda_handler cfg oc today now_str envs).1 =
      (envs.map (region_block cfg oc today now_str)).flatten := by
  induction envs with
  | nil => rfl
  | cons renv rest ih =>
    unfold lambda_handler at h ⊢
    cases hb :
        (backup_tagged_instances_in_region cfg oc today now_str
          renv.instance_discovery).2 with
    | some msg =>
      simp only [hb] at h
      exact Option.noConfusion h
    | none =>
      simp only [hb] at h ⊢
      cases hd : (delete_expired_amis cfg oc today renv.image_discovery).2 with
      | some msg =>
        simp only [hd] at h
        exact Option.noConfusion h
      | none =>
        simp only [hd] at h ⊢
        rw [ih h]
        simp [region_block]

/-- C8: on a run where no fatal error occurs, the emitted trace is exactly
the concatenation, in configured order, of per-region blocks, each being the
region log followed by ALL Backup Initiator events of that region and then
ALL Reaper events of that region — so per region the backup pass completes
before reaping begins and regions are sequential; moreover the Backup
Initiator never emits a deletion call, so an image created in the backup
pass is never deleted within that pass. -/
theorem region_sequencing (cfg : Config) (oc : Outcomes) (today : Date)
    (now_str : String) (envs : List RegionEnv)
    (h : (lambda_handler cfg oc today now_str envs).2 = none) :
    (lambda_handler cfg oc today now_str envs).1 =
      (envs.map (region_block cfg oc today now_str)).flatten ∧
    ∀ disc : Except String (List (List Instance)),
      ∀ e ∈ (backup_tagged_instances_in_region cfg oc today now_str disc).1,
        e.isDeletion = false :=
  ⟨lambda_handler_trace cfg oc today now_str envs h,
   fun disc e he => (backup_pass_events cfg oc today now_str disc e he).1⟩

/-- A second region whose discovery calls both fail with the opt-in-required
condition. -/
def optInEnv : RegionEnv :=
  ⟨"us-east-2",
   .error "An error occurred (OptInRequired) when calling the DescribeInstances operation",
   .error "An error occurred (OptInRequired) when calling the DescribeImages operation"⟩

/-- C8 witness: a successful two-region run decomposes into the two region
blocks in configured order. -/
theorem region_sequencing_witness :
    (lambda_handler defaultConfig allOk junDate "2024-06-01-00-00-00.000000"
      [sampleEnv, optInEnv]).1 =
      ([sampleEnv, optInEnv].map
        (region_block defaultConfig allOk junDate "2024-06-01-00-00-00.000000")).flatten :=
  (region_sequencing defaultConfig allOk junDate "2024-06-01-00-00-00.000000"
    [sampleEnv, optInEnv] (by decide)).1

/-- C9: an instance whose `Name` tag is present but empty gets an image name
whose prefix is the raw instance id (Python truthiness makes the empty
string fall back), and an empty `Retention` tag value is likewise treated as
absent, resolving to the configured default retention. -/
theorem empty_name_and_retention_fallback (cfg : Config) (inst : Instance)
    (now_str : String)
    (hname : dict_get inst.tags "Name" = some "")
    (hret : dict_get inst.tags "Retention" = some "") :
    image_name inst now_str = inst.instanceId ++ "-backup-" ++ now_str ∧
    retention_days inst.tags cfg = .nat cfg.default_retention_time := by
  constructor
  · simp [image_name, instance_name, hname]
  · simp [retention_days, hret]

/-- C9 witness: the empty-tag instance with the default configuration. -/
theorem empty_name_and_retention_fallback_witness :
    image_name emptyTagInst "2024-01-01-00-00-00.000000" =
      emptyTagInst.instanceId ++ "-backup-" ++ "2024-01-01-00-00-00.000000" ∧
    retention_days emptyTagInst.tags defaultConfig =
      .nat defaultConfig.default_retention_time :=
  empty_name_and_retention_fallback defaultConfig emptyTagInst
    "2024-01-01-00-00-00.000000" (by decide) (by decide)

/-- C10: the applied tag list is exactly the sanitized copies of ALL source
tags followed by the three appended entries (`DeleteAfter`,
`OriginalInstanceID`, marker) in that order — so when a source instance
already carries one of those keys, both the copied original entry and the
appended entry are present (no deduplication, no override), and the
appended entries come after all copied tags. (Stated for a marker key not
using the reserved `aws:` prefix, as the default marker does not.) -/
theorem duplicate_keys_preserved_appended_last (tags : List Tag)
    (delete_fmt iid marker : String) (hm : startswith marker "aws:" = false) :
    finaltags tags delete_fmt iid marker =
      tags.map sanitizeTag ++
        ([⟨"DeleteAfter", delete_fmt⟩, ⟨"OriginalInstanceID", iid⟩,
          ⟨marker, "true"⟩] : List Tag) ∧
    (∀ v, (⟨"DeleteAfter", v⟩ : Tag) ∈ tags →
      (⟨"DeleteAfter", v⟩ : Tag) ∈ finaltags tags delete_fmt iid marker) ∧
    (∀ v, (⟨"OriginalInstanceID", v⟩ : Tag) ∈ tags →
      (⟨"OriginalInstanceID", v⟩ : Tag) ∈ finaltags tags delete_fmt iid marker) ∧
    (∀ v, (⟨marker, v⟩ : Tag) ∈ tags →
      (⟨marker, v⟩ : Tag) ∈ finaltags tags delete_fmt iid marker) := by
  refine ⟨?_, ?_, ?_, ?_⟩
  · unfold finaltags
    rw [List.map_append]
    congr 1
    have h1 : sanitizeTag ⟨"DeleteAfter", delete_fmt⟩ = ⟨"DeleteAfter", delete_fmt⟩ :=
      sanitizeTag_of_not_aws (show startswith "DeleteAfter" "aws:" = false by decide)
    have h2 : sanitizeTag ⟨"OriginalInstanceID", iid⟩ = ⟨"OriginalInstanceID", iid⟩ :=
      sanitizeTag_of_not_aws (show startswith "OriginalInstanceID" "aws:" = false by decide)
    have h3 : sanitizeTag ⟨marker, "true"⟩ = ⟨marker, "true"⟩ :=
      sanitizeTag_of_not_aws hm
    simp [h1, h2, h3]
  · intro v hv
    unfold finaltags
    exact List.mem_map.mpr
      ⟨⟨"DeleteAfter", v⟩, List.mem_append_left _ hv,
       sanitizeTag_of_not_aws (show startswith "DeleteAfter" "aws:" = false by decide)⟩
  · intro v hv
    unfold finaltags
    exact List.mem_map.mpr
      ⟨⟨"OriginalInstanceID", v⟩, List.mem_append_left _ hv,
       sanitizeTag_of_not_aws (show startswith "OriginalInstanceID" "aws:" = false by decide)⟩
  · intro v hv
    unfold finaltags
    exact List.mem_map.mpr
      ⟨⟨marker, v⟩, List.mem_append_left _ hv, sanitizeTag_of_not_aws hm⟩

/-- C10 witness: a source instance already tagged with `DeleteAfter`,
`OriginalInstanceID` and the default marker key keeps all three copied
entries, and the applied list ends with the three appended entries. -/
theorem duplicate_keys_preserved_appended_last_witness :
    finaltags
        [⟨"DeleteAfter", "old"⟩, ⟨"OriginalInstanceID", "i-old"⟩,
         ⟨"AWSAutomatedDailySnapshots", "stale"⟩]
        "01-08-2024" "i-abc" "AWSAutomatedDailySnapshots" =
      ([⟨"DeleteAfter", "old"⟩, ⟨"OriginalInstanceID", "i-old"⟩,
        ⟨"AWSAutomatedDailySnapshots", "stale"⟩] : List Tag).map sanitizeTag ++
        ([⟨"DeleteAfter", "01-08-2024"⟩, ⟨"OriginalInstanceID", "i-abc"⟩,
          ⟨"AWSAutomatedDailySnapshots", "true"⟩] : List Tag) ∧
    (⟨"DeleteAfter", "old"⟩ : Tag) ∈
      finaltags
        [⟨"DeleteAfter", "old"⟩, ⟨"OriginalInstanceID", "i-old"⟩,
         ⟨"AWSAutomatedDailySnapshots", "stale"⟩]
        "01-08-2024" "i-abc" "AWSAutomatedDailySnapshots" :=
  ⟨(duplicate_keys_preserved_appended_last
      [⟨"DeleteAfter", "old"⟩, ⟨"OriginalInstanceID", "i-old"⟩,
       ⟨"AWSAutomatedDailySnapshots", "stale"⟩]
      "01-08-2024" "i-abc" "AWSAutomatedDailySnapshots" (by decide)).1,
   (duplicate_keys_preserved_appended_last
      [⟨"DeleteAfter", "old"⟩, ⟨"OriginalInstanceID", "i-old"⟩,
       ⟨"AWSAutomatedDailySnapshots", "stale"⟩]
      "01-08-2024" "i-abc" "AWSAutomatedDailySnapshots" (by decide)).2.1
      "old" (by decide)⟩

end DailySnapshots
